import Mathlib

/-!
Verification development for the disaster-warning ingestion pipeline.

The Python modules under scrutiny are embedded shallowly:

* `src/core/event_deduplicator.py`  (EventDeduplicator)
* `src/core/filters/report_controller.py`  (ReportCountController)
* `src/core/intensity_calculator.py`  (IntensityCalculator)
* `src/core/websocket_manager.py`  (reconnect scheduling)
* `src/core/handlers/base.py`  (heartbeat detection)

Python floats are modelled as rationals (where only field plumbing and
quantization arithmetic matter) or as real numbers (for the attenuation
formula, which uses `math.log`/`math.sqrt`).  `datetime` values are modelled
as rational seconds since an arbitrary epoch; `datetime.now()` is passed in
explicitly as a `now` argument.  Python `dict`s are modelled as association
lists with `dict`-style insert-or-overwrite update.
-/

unseal Rat.add Rat.sub Rat.mul Rat.inv Rat.ofScientific

/-- Association-list lookup, mirroring Python `dict.get`. -/
def alistLookup {α β : Type} [DecidableEq α] (k : α) : List (α × β) → Option β
  | [] => none
  | (k2, v) :: rest => if k = k2 then some v else alistLookup k rest

/-- Association-list insert-or-overwrite, mirroring Python `d[k] = v`. -/
def alistInsert {α β : Type} [DecidableEq α] (k : α) (v : β) :
    List (α × β) → List (α × β)
  | [] => [(k, v)]
  | (k2, v2) :: rest =>
    if k = k2 then (k, v) :: rest else (k2, v2) :: alistInsert k v rest

/-- Python `a or b` on strings: the empty string is falsy. -/
def pyStrOr (a b : String) : String := if a = "" then b else a

/-- Python `round`: round half to even (banker's rounding), on rationals. -/
def pyRound (q : ℚ) : ℤ :=
  let f := ⌊q⌋
  let r := q - (f : ℚ)
  if r < 1 / 2 then f
  else if 1 / 2 < r then f + 1
  else if f % 2 = 0 then f else f + 1

/-- Whether `sub` occurs as a prefix of `s` (character lists). -/
def charsHavePre (sub s : List Char) : Bool := sub.isPrefixOf s

/-- Python `sub in s` substring test, on character lists. -/
def charsContain (sub : List Char) : List Char → Bool
  | [] => sub.isEmpty
  | c :: rest => charsHavePre sub (c :: rest) || charsContain sub rest

/-- Python `sub in s` substring test on strings. -/
def strContains (s sub : String) : Bool := charsContain sub.toList s.toList

/-- Python `s.lower()` (character-wise; ASCII-only lowering, which agrees
with Python on every string the pipeline compares). -/
def pyLower (s : String) : String := String.mk (s.toList.map Char.toLower)

/-- `models.DataSource`: the enum of upstream providers (models/models.py). -/
inductive DataSource where
  | fanStudioCenc
  | fanStudioCea
  | fanStudioCwa
  | fanStudioUsgs
  | fanStudioJma
  | fanStudioWeather
  | fanStudioTsunami
  | p2pEew
  | p2pEarthquake
  | p2pTsunami
  | wolfxJmaEew
  | wolfxCencEew
  | wolfxCwaEew
  | wolfxCencEq
  | wolfxJmaEq
  | globalQuake
  deriving DecidableEq

/-- `DataSource.value`: the string value of each enum member. -/
def DataSource.value : DataSource → String
  | .fanStudioCenc => "fan_studio_cenc"
  | .fanStudioCea => "fan_studio_cea"
  | .fanStudioCwa => "fan_studio_cwa"
  | .fanStudioUsgs => "fan_studio_usgs"
  | .fanStudioJma => "fan_studio_jma"
  | .fanStudioWeather => "fan_studio_weather"
  | .fanStudioTsunami => "fan_studio_tsunami"
  | .p2pEew => "p2p_eew"
  | .p2pEarthquake => "p2p_earthquake"
  | .p2pTsunami => "p2p_tsunami"
  | .wolfxJmaEew => "wolfx_jma_eew"
  | .wolfxCencEew => "wolfx_cenc_eew"
  | .wolfxCwaEew => "wolfx_cwa_eew"
  | .wolfxCencEq => "wolfx_cenc_eq"
  | .wolfxJmaEq => "wolfx_jma_eq"
  | .globalQuake => "global_quake"

/-- `models.EarthquakeData`, restricted to the fields read by the
deduplicator, the report controller and the fingerprint function.
`raw_issue_type` models `raw_data.get("issue", {}).get("type", "")`, the
only part of `raw_data` those components read. -/
structure EarthquakeData where
  id : String
  event_id : String
  source : DataSource
  shock_time : Option ℚ
  latitude : Option ℚ
  longitude : Option ℚ
  magnitude : Option ℚ
  updates : ℕ
  is_final : Bool
  info_type : String
  raw_issue_type : String
  deriving DecidableEq

/-- The `data` payload of a `DisasterEvent`: the dedup/report code only
distinguishes `EarthquakeData` from everything else via `isinstance`. -/
inductive EventData where
  | earthquake (eq : EarthquakeData)
  | nonEarthquake
  deriving DecidableEq

/-- `models.DisasterEvent`, restricted to the fields read by the
deduplicator and the report controller (`data` and `source`). -/
structure DisasterEvent where
  id : String
  data : EventData
  source : DataSource
  deriving DecidableEq

/-- `EventDeduplicator._get_source_id`: DataSource value to source id,
defaulting to the raw enum value. -/
def dedupSourceId (s : DataSource) : String :=
  match s with
  | .fanStudioCea => "cea_fanstudio"
  | .wolfxCencEew => "cea_wolfx"
  | .fanStudioCwa => "cwa_fanstudio"
  | .wolfxCwaEew => "cwa_wolfx"
  | .fanStudioJma => "jma_fanstudio"
  | .p2pEew => "jma_p2p"
  | .p2pEarthquake => "jma_p2p_info"
  | .wolfxJmaEew => "jma_wolfx"
  | .fanStudioCenc => "cenc_fanstudio"
  | .fanStudioUsgs => "usgs_fanstudio"
  | .globalQuake => "global_quake"
  | other => other.value

/-- The fingerprint string produced by
`EventDeduplicator._generate_event_fingerprint`, kept in structured form.
The three constructors correspond to the three return statements of the
Python function; their rendered strings can never collide across
constructors (a "gq_" prefix, the literal "unknown_location", and a
numeric quadruple), and within `quant` the string is a function of the
four pre-formatting values stored here. -/
inductive Fingerprint where
  | gq (event_id : String)
  | unknownLocation
  | quant (lat_grid lon_grid mag_grid : ℚ) (time_minute : ℤ)
  deriving DecidableEq

/-- `EventDeduplicator._generate_event_fingerprint`.  `now` stands for
`datetime.now()`, the fallback when `shock_time` is `None`; times are in
seconds, so zeroing seconds and microseconds is flooring to a minute. -/
def generateEventFingerprint (location_tolerance magnitude_tolerance : ℚ)
    (now : ℚ) (e : EarthquakeData) : Fingerprint :=
  if e.source = DataSource.globalQuake ∧ pyStrOr e.event_id e.id ≠ "" then
    .gq (pyStrOr e.event_id e.id)
  else if e.latitude.getD 0 = 0 ∨ e.longitude.getD 0 = 0 then
    .unknownLocation
  else
    let k := 111 / location_tolerance
    let lat_grid := (pyRound (e.latitude.getD 0 * k) : ℚ) / k
    let lon_grid := (pyRound (e.longitude.getD 0 * k) : ℚ) / k
    let mag_grid :=
      (pyRound (e.magnitude.getD 0 / magnitude_tolerance) : ℚ) *
        magnitude_tolerance
    let t := e.shock_time.getD now
    .quant lat_grid lon_grid mag_grid ⌊t / 60⌋

/-- One per-source record inside `EventDeduplicator.recent_events`. -/
structure DedupRecord where
  timestamp : ℚ
  source : String
  latitude : ℚ
  longitude : ℚ
  magnitude : ℚ
  info_type : String
  issue_type : String
  processed_reports : Finset ℕ
  is_final : Bool
  deriving DecidableEq

/-- `EventDeduplicator.recent_events`: fingerprint, then source id, to
record. -/
abbrev RecentEvents := List (Fingerprint × List (String × DedupRecord))

/-- The record dict literal built at lines 95-105 and 116-127 of
`event_deduplicator.py` (both occurrences are identical). -/
def recordEntry (now : ℚ) (e : EarthquakeData) : DedupRecord :=
  { timestamp := e.shock_time.getD now
    source := e.source.value
    latitude := e.latitude.getD 0
    longitude := e.longitude.getD 0
    magnitude := e.magnitude.getD 0
    info_type := e.info_type
    issue_type := e.raw_issue_type
    processed_reports := {e.updates}
    is_final := e.is_final }

/-- The JMA information-type ladder used by `_should_allow_update`. -/
def jmaTypes : List String :=
  ["ScalePrompt", "Destination", "ScaleAndDestination", "DetailScale"]

/-- `EventDeduplicator._should_allow_update`.  The legacy
`processed_reports`-is-not-a-set branch is omitted: every record this
class stores carries a set. -/
def shouldAllowUpdate (current : EarthquakeData) (existing : DedupRecord) :
    Bool :=
  let current_report := current.updates
  if current_report ∉ existing.processed_reports then true
  else if current.is_final ∧ existing.is_final = false then true
  else if current.source = DataSource.fanStudioUsgs ∧
      pyLower existing.info_type = "automatic" ∧
      pyLower current.info_type = "reviewed" then true
  else if current.raw_issue_type ∈ jmaTypes ∧
      existing.issue_type ∈ jmaTypes ∧
      jmaTypes.indexOf existing.issue_type <
        jmaTypes.indexOf current.raw_issue_type then true
  else if strContains (pyLower existing.info_type) "自动" ∧
      strContains (pyLower current.info_type) "正式" then true
  else false

/-- `EventDeduplicator.should_push_event`.  State is passed explicitly;
the returned pair is (decision, updated `recent_events`).  `now` stands
for `datetime.now()`.  `time_window_minutes` is the dedup window. -/
def shouldPushEvent (time_window_minutes location_tolerance
    magnitude_tolerance : ℚ) (now : ℚ) (st : RecentEvents)
    (event : DisasterEvent) : Bool × RecentEvents :=
  match event.data with
  | .nonEarthquake => (true, st)
  | .earthquake earthquake =>
    let source_id := dedupSourceId event.source
    let fp := generateEventFingerprint location_tolerance magnitude_tolerance
      now earthquake
    let current_time := earthquake.shock_time.getD now
    match alistLookup fp st with
    | none =>
      (true, alistInsert fp [(source_id, recordEntry now earthquake)] st)
    | some source_events =>
      match alistLookup source_id source_events with
      | some existing =>
        if |current_time - existing.timestamp| / 60 ≤ time_window_minutes then
          if shouldAllowUpdate earthquake existing then
            let existing2 :=
              { existing with
                processed_reports :=
                  insert earthquake.updates existing.processed_reports
                timestamp := current_time
                is_final := existing.is_final || earthquake.is_final }
            (true,
              alistInsert fp (alistInsert source_id existing2 source_events)
                st)
          else (false, st)
        else
          (true,
            alistInsert fp
              (alistInsert source_id (recordEntry now earthquake)
                source_events) st)
      | none =>
        (true,
          alistInsert fp
            (alistInsert source_id (recordEntry now earthquake)
              source_events) st)

/-- `data_source_config.get_sources_needing_report_control()`: the eight
EEW sources are configured with `supports_report_count=True`. -/
def sourcesNeedingReportControl : List String :=
  ["cea_fanstudio", "cea_wolfx", "cwa_fanstudio", "cwa_wolfx",
   "jma_fanstudio", "jma_p2p", "jma_wolfx", "global_quake"]

/-- `ReportCountController._get_source_id`: its own mapping (smaller than
the deduplicator's), defaulting to the empty string. -/
def reportSourceId (s : DataSource) : String :=
  match s with
  | .fanStudioCea => "cea_fanstudio"
  | .wolfxCencEew => "cea_wolfx"
  | .fanStudioCwa => "cwa_fanstudio"
  | .wolfxCwaEew => "cwa_wolfx"
  | .fanStudioJma => "jma_fanstudio"
  | .p2pEew => "jma_p2p"
  | .wolfxJmaEew => "jma_wolfx"
  | .globalQuake => "global_quake"
  | _ => ""

/-- Constructor arguments of `ReportCountController`. -/
structure ReportCountConfig where
  cea_cwa_report_n : ℤ
  jma_report_n : ℤ
  gq_report_n : ℤ
  final_report_always_push : Bool
  ignore_non_final_reports : Bool

/-- The defaults of `ReportCountController.__init__`. -/
def defaultReportCountConfig : ReportCountConfig :=
  { cea_cwa_report_n := 1
    jma_report_n := 3
    gq_report_n := 5
    final_report_always_push := true
    ignore_non_final_reports := false }

/-- `ReportCountController.should_push_report`.  The
`event_report_counts` dict is never read by the decision, so the function
is stateless. -/
def shouldPushReport (cfg : ReportCountConfig) (event : DisasterEvent) :
    Bool :=
  match event.data with
  | .nonEarthquake => true
  | .earthquake earthquake =>
    let source_id := reportSourceId event.source
    if source_id ∉ sourcesNeedingReportControl then true
    else
      let current_report : ℤ := earthquake.updates
      let pn_sf : ℤ × Bool :=
        if strContains source_id "jma" then (cfg.jma_report_n, true)
        else if strContains source_id "global_quake" then
          (cfg.gq_report_n, false)
        else if strContains source_id "cea" ∨ strContains source_id "cwa"
          then (cfg.cea_cwa_report_n, false)
        else (cfg.cea_cwa_report_n, true)
      let is_final := if pn_sf.2 then earthquake.is_final else false
      if is_final ∧ cfg.final_report_always_push then true
      else if current_report = 1 then true
      else if cfg.ignore_non_final_reports ∧ is_final = false then false
      else
        let push_every_n := if pn_sf.1 ≤ 0 then 1 else pn_sf.1
        current_report % push_every_n = 0

/-- `WebSocketManager.connect` retry-count bookkeeping: a retry bumps the
per-endpoint counter, a first connect resets it. -/
def connectRetryUpdate (is_retry : Bool) (count : ℕ) : ℕ :=
  if is_retry then count + 1 else 0

/-- The retry counter after `k` consecutive failed reconnect attempts
(each failed retry went through `connect(is_retry=True)` exactly once). -/
def retryCountAfterFailedRetries : ℕ → ℕ
  | 0 => 0
  | k + 1 => connectRetryUpdate true (retryCountAfterFailedRetries k)

/-- The decision of the `reconnect()` closure inside
`WebSocketManager._schedule_reconnect`: given the configured retry cap,
the primary uri, the optional backup url and the current retry counter,
either the uri of the next attempt, or `none` when the endpoint is
abandoned (max retries reached). -/
def scheduleReconnect (max_retries : ℕ) (uri : String)
    (backup_url : Option String) (current_retry : ℕ) : Option String :=
  let has_backup := backup_url.isSome
  let total_max_retries :=
    if has_backup then max_retries * 2 else max_retries
  if current_retry ≥ total_max_retries then none
  else if has_backup = true ∧ current_retry ≥ max_retries then backup_url
  else some uri

/-- A JSON scalar as far as the heartbeat detector inspects values. -/
inductive JsonValue where
  | num (q : ℚ)
  | str (s : String)
  | nullv
  | emptyObj
  | other
  deriving DecidableEq

/-- Python `v == 0` for the coordinate check of the heartbeat detector. -/
def jsonIsZero : JsonValue → Bool
  | .num q => q = 0
  | _ => false

/-- Python `msg_data.get(field) in ["", None, {}]` (a missing key yields
`None`, hence counts as empty). -/
def isEmptyFieldValue : Option JsonValue → Bool
  | none => true
  | some v =>
    match v with
    | .str s => s = ""
    | .nullv => true
    | .emptyObj => true
    | _ => false

/-- The `critical_fields` table of `BaseDataHandler._is_heartbeat_message`. -/
def criticalFieldsFor (source_id : String) : Option (List String) :=
  if source_id = "usgs_fanstudio" then some ["id", "magnitude", "placeName"]
  else if source_id = "china_tsunami_fanstudio" then
    some ["warningInfo", "title", "level"]
  else if source_id = "china_weather_fanstudio" then
    some ["headline", "description"]
  else none

/-- The body of `BaseDataHandler._is_heartbeat_message` after the
rate-limit gate: zero-coordinate detection, then the critical-field
majority check. -/
def heartbeatBody (source_id : String)
    (msg_data : List (String × JsonValue)) : Bool :=
  let criticalCheck :=
    match criticalFieldsFor source_id with
    | some required_fields =>
      let missing_count :=
        (required_fields.filter
          (fun f => isEmptyFieldValue (alistLookup f msg_data))).length
      decide ((missing_count : ℚ) ≥ (required_fields.length : ℚ) / 2)
    | none => false
  match alistLookup "latitude" msg_data, alistLookup "longitude" msg_data with
  | some lat, some lon =>
    if jsonIsZero lat ∧ jsonIsZero lon then true else criticalCheck
  | _, _ => criticalCheck

/-- `BaseDataHandler._is_heartbeat_message` with the per-instance
rate-limit cache passed explicitly: `last_check` is the stored check time
(seconds), `now` is `time.time()`.  Returns the classification and the
updated cache. -/
def isHeartbeatMessage (source_id : String) (last_check : Option ℚ)
    (now : ℚ) (msg_data : List (String × JsonValue)) :
    Bool × Option ℚ :=
  match last_check with
  | some t =>
    if now - t < 30 then (false, last_check)
    else (heartbeatBody source_id msg_data, some now)
  | none => (heartbeatBody source_id msg_data, some now)

/-- Whether the heartbeat detector's rate limiter lets a check at `now`
actually run (no previous check, or at least 30 seconds elapsed). -/
def rateLimitAllows (last_check : Option ℚ) (now : ℚ) : Bool :=
  match last_check with
  | some t => decide (¬ now - t < 30)
  | none => true

/-- `IntensityCalculator.calculate_estimated_intensity`, over the reals.
Arguments in source order: magnitude, epicentral distance (km), depth
(km), optional event longitude (west formula iff present and < 105). -/
noncomputable def calculateEstimatedIntensity (magnitude distance_km
    depth_km : ℝ) (event_longitude : Option ℝ) : ℝ :=
  let hypocentral_distance := Real.sqrt (distance_km ^ 2 + depth_km ^ 2)
  let R := max hypocentral_distance 5
  let is_west : Bool :=
    match event_longitude with
    | some lon => if lon < 105 then true else false
    | none => false
  let A : ℝ := if is_west then 5.643 else 6.046
  let B : ℝ := if is_west then 1.538 else 1.480
  let Cc : ℝ := if is_west then 2.109 else 2.081
  max 0 (min 12 (A + B * magnitude - Cc * Real.log (R + 25)))

/-- A CENC earthquake report used in the dedup scenarios: fixed location,
magnitude and origin time, variable report number and final flag. -/
def cencQuake (updates : ℕ) (final : Bool) : EarthquakeData :=
  { id := "e1"
    event_id := "e1"
    source := .fanStudioCenc
    shock_time := some 600
    latitude := some 35
    longitude := some 139
    magnitude := some 5
    updates := updates
    is_final := final
    info_type := ""
    raw_issue_type := "" }

/-- The `DisasterEvent` wrapping `cencQuake`. -/
def cencEvent (updates : ℕ) (final : Bool) : DisasterEvent :=
  { id := "evt", data := .earthquake (cencQuake updates final)
    source := .fanStudioCenc }

/-- Deduplicator state after the first scenario event (report 1). -/
def dedupState1 : RecentEvents :=
  (shouldPushEvent 1 20 (1/2) 600 [] (cencEvent 1 false)).2

/-- Deduplicator state after the second scenario event (report 2). -/
def dedupState2 : RecentEvents :=
  (shouldPushEvent 1 20 (1/2) 600 dedupState1 (cencEvent 2 false)).2

/-- C2: from a single source, reports numbered 1, 2, then 2 again, all
within the dedup window and non-final: the deduplicator accepts the first
two and rejects the repeat of report 2. -/
theorem dedup_seq_1_2_2 :
    (shouldPushEvent 1 20 (1/2) 600 [] (cencEvent 1 false)).1 = true ∧
    (shouldPushEvent 1 20 (1/2) 600 dedupState1 (cencEvent 2 false)).1 =
      true ∧
    (shouldPushEvent 1 20 (1/2) 600 dedupState2 (cencEvent 2 false)).1 =
      false := by decide

/-- C3: in the same scenario, if the third message repeats report 2 but
carries the final flag while the stored record is not final, the
deduplicator accepts it despite the repeated sequence number. -/
theorem dedup_seq_final_override :
    (shouldPushEvent 1 20 (1/2) 600 [] (cencEvent 1 false)).1 = true ∧
    (shouldPushEvent 1 20 (1/2) 600 dedupState1 (cencEvent 2 false)).1 =
      true ∧
    (shouldPushEvent 1 20 (1/2) 600 dedupState2 (cencEvent 2 true)).1 =
      true := by decide

/-- Looking up the key just inserted yields the inserted value. -/
theorem alistLookup_insert_self {α β : Type} [DecidableEq α] (k : α)
    (v : β) (l : List (α × β)) : alistLookup k (alistInsert k v l) = some v
    := by
  induction l with
  | nil => simp [alistInsert, alistLookup]
  | cons p rest ih =>
    rcases p with ⟨k2, v2⟩
    by_cases h : k = k2 <;> simp [alistInsert, alistLookup, h, ih]

/-- C4: when the fingerprint is already known but this source id has no
entry under it, `should_push_event` accepts unconditionally and records an
entry for that source. -/
theorem dedup_new_source_always_pass (w lt mt now : ℚ) (st : RecentEvents)
    (event : DisasterEvent) (eq : EarthquakeData)
    (source_events : List (String × DedupRecord))
    (hdata : event.data = .earthquake eq)
    (hfp : alistLookup (generateEventFingerprint lt mt now eq) st =
      some source_events)
    (hsid : alistLookup (dedupSourceId event.source) source_events = none) :
    (shouldPushEvent w lt mt now st event).1 = true ∧
    alistLookup (dedupSourceId event.source)
      ((alistLookup (generateEventFingerprint lt mt now eq)
        (shouldPushEvent w lt mt now st event).2).getD []) =
      some (recordEntry now eq) := by
  rcases event with ⟨i, d, s⟩
  simp only at hdata hsid
  subst hdata
  simp only [shouldPushEvent, hfp, hsid, alistLookup_insert_self,
    Option.getD_some]
  exact ⟨trivial, trivial⟩

/-- C10: whenever `should_push_event` rejects an event as a duplicate,
`recent_events` is unchanged: no record is created or deleted and the
matched record keeps its timestamp, processed-report set and final flag. -/
theorem dedup_reject_frame (w lt mt now : ℚ) (st : RecentEvents)
    (event : DisasterEvent)
    (h : (shouldPushEvent w lt mt now st event).1 = false) :
    (shouldPushEvent w lt mt now st event).2 = st := by
  rcases event with ⟨i, d, s⟩
  cases d with
  | nonEarthquake => rfl
  | earthquake eq =>
    revert h
    simp only [shouldPushEvent]
    split
    · intro h
      simp at h
    · split
      · split
        · split
          · intro h
            simp at h
          · intro _
            rfl
        · intro h
          simp at h
      · intro h
        simp at h

/-- Witness for the frame property: the rejected repeat of report 2
leaves the state untouched. -/
theorem dedup_reject_frame_witness :
    (shouldPushEvent 1 20 (1/2) 600 dedupState2 (cencEvent 2 false)).2 =
      dedupState2 :=
  dedup_reject_frame 1 20 (1/2) 600 dedupState2 (cencEvent 2 false)
    (by decide)

/-- A P2P JMA EEW report used in the report-count scenario. -/
def jmaEewEvent (updates : ℕ) : DisasterEvent :=
  { id := "evt"
    data := .earthquake
      { id := "j1"
        event_id := "j1"
        source := .p2pEew
        shock_time := some 600
        latitude := some 35
        longitude := some 139
        magnitude := some 5
        updates := updates
        is_final := false
        info_type := ""
        raw_issue_type := "" }
    source := .p2pEew }

/-- C5: with the JMA divisor default of 3, final-always-forward on,
ignore-non-final off, and no final reports, the gate forwards reports
1,2,3,4,5,6 as true,false,true,false,false,true. -/
theorem report_gate_jma_n3 :
    (List.range 6).map
      (fun i => shouldPushReport defaultReportCountConfig (jmaEewEvent
        (i + 1))) = [true, false, true, false, false, true] := by decide

/-- A GlobalQuake report of the same physical earthquake as
`cencQuake` (same coordinates, magnitude and origin time). -/
def gqQuake : EarthquakeData :=
  { id := "abc"
    event_id := "abc"
    source := .globalQuake
    shock_time := some 600
    latitude := some 35
    longitude := some 139
    magnitude := some 5
    updates := 1
    is_final := false
    info_type := ""
    raw_issue_type := "" }

/-- The CENC report with latitude 0 (equator): falsy in Python, so the
fingerprint short-circuits to "unknown_location". -/
def zeroLatQuake : EarthquakeData :=
  { cencQuake 1 false with latitude := some 0 }

/-- A Wolfx report 0.001 degrees north of the equator: its latitude
quantizes to the same grid cell as latitude 0, but it is not falsy. -/
def nearZeroLatQuake : EarthquakeData :=
  { cencQuake 1 false with source := .wolfxCencEq, latitude := some (1 / 1000) }

/-- C1 counterexample: two pairs of reports of one physical earthquake
(identical location grid cell, magnitude step and time bucket, different
source ids) that nevertheless receive different fingerprints: a
GlobalQuake report (fingerprinted by native event id) against a CENC
report, and a latitude-0 report (short-circuited to "unknown_location")
against a report 0.001 degrees away in the same grid cell. -/
theorem fingerprint_globalquake_cex :
    (dedupSourceId gqQuake.source ≠ dedupSourceId (cencQuake 1 false).source ∧
    pyRound (gqQuake.latitude.getD 0 * (111 / 20)) =
      pyRound ((cencQuake 1 false).latitude.getD 0 * (111 / 20)) ∧
    pyRound (gqQuake.longitude.getD 0 * (111 / 20)) =
      pyRound ((cencQuake 1 false).longitude.getD 0 * (111 / 20)) ∧
    pyRound (gqQuake.magnitude.getD 0 / (1 / 2)) =
      pyRound ((cencQuake 1 false).magnitude.getD 0 / (1 / 2)) ∧
    ⌊gqQuake.shock_time.getD 0 / 60⌋ =
      ⌊(cencQuake 1 false).shock_time.getD 0 / 60⌋ ∧
    generateEventFingerprint 20 (1 / 2) 0 gqQuake ≠
      generateEventFingerprint 20 (1 / 2) 0 (cencQuake 1 false)) ∧
    (dedupSourceId zeroLatQuake.source ≠
      dedupSourceId nearZeroLatQuake.source ∧
    pyRound (zeroLatQuake.latitude.getD 0 * (111 / 20)) =
      pyRound (nearZeroLatQuake.latitude.getD 0 * (111 / 20)) ∧
    pyRound (zeroLatQuake.longitude.getD 0 * (111 / 20)) =
      pyRound (nearZeroLatQuake.longitude.getD 0 * (111 / 20)) ∧
    pyRound (zeroLatQuake.magnitude.getD 0 / (1 / 2)) =
      pyRound (nearZeroLatQuake.magnitude.getD 0 / (1 / 2)) ∧
    ⌊zeroLatQuake.shock_time.getD 0 / 60⌋ =
      ⌊nearZeroLatQuake.shock_time.getD 0 / 60⌋ ∧
    generateEventFingerprint 20 (1 / 2) 0 zeroLatQuake ≠
      generateEventFingerprint 20 (1 / 2) 0 nearZeroLatQuake) := by
  decide

/-- C1 (amended): two earthquake events from different source ids whose
coordinates quantize to the same grid cell, magnitudes to the same step
and occurrence times to the same minute bucket get equal fingerprints,
provided neither comes from the GlobalQuake source (which fingerprints by
native id) and both have non-missing, non-zero coordinates (the code
short-circuits to a shared "unknown_location" fingerprint otherwise). -/
theorem fingerprint_same_cell_eq (lt mt now : ℚ) (a b : EarthquakeData)
    (hsa : a.source ≠ DataSource.globalQuake)
    (hsb : b.source ≠ DataSource.globalQuake)
    (_hsrc : dedupSourceId a.source ≠ dedupSourceId b.source)
    (hla : a.latitude.getD 0 ≠ 0) (hoa : a.longitude.getD 0 ≠ 0)
    (hlb : b.latitude.getD 0 ≠ 0) (hob : b.longitude.getD 0 ≠ 0)
    (hlat : pyRound (a.latitude.getD 0 * (111 / lt)) =
      pyRound (b.latitude.getD 0 * (111 / lt)))
    (hlon : pyRound (a.longitude.getD 0 * (111 / lt)) =
      pyRound (b.longitude.getD 0 * (111 / lt)))
    (hmag : pyRound (a.magnitude.getD 0 / mt) =
      pyRound (b.magnitude.getD 0 / mt))
    (ht : ⌊a.shock_time.getD now / 60⌋ = ⌊b.shock_time.getD now / 60⌋) :
    generateEventFingerprint lt mt now a =
      generateEventFingerprint lt mt now b := by
  have h1 : ¬(a.source = DataSource.globalQuake ∧
      pyStrOr a.event_id a.id ≠ "") := fun h => hsa h.1
  have h2 : ¬(b.source = DataSource.globalQuake ∧
      pyStrOr b.event_id b.id ≠ "") := fun h => hsb h.1
  have h3 : ¬(a.latitude.getD 0 = 0 ∨ a.longitude.getD 0 = 0) :=
    fun h => h.elim hla hoa
  have h4 : ¬(b.latitude.getD 0 = 0 ∨ b.longitude.getD 0 = 0) :=
    fun h => h.elim hlb hob
  simp only [generateEventFingerprint]
  rw [if_neg h1, if_neg h2, if_neg h3, if_neg h4, hlat, hlon, hmag, ht]

/-- A Wolfx CENC report of the same physical earthquake as `cencQuake`:
coordinates 4 thousandths of a degree apart (same 20 km cell), magnitude
5.1 vs 5.0 (same 0.5 step), origin time 30 s later (same minute). -/
def wolfxQuakeB : EarthquakeData :=
  { id := "e2"
    event_id := "e2"
    source := .wolfxCencEq
    shock_time := some 630
    latitude := some (35 + 1 / 250)
    longitude := some 139
    magnitude := some (51 / 10)
    updates := 1
    is_final := false
    info_type := ""
    raw_issue_type := "" }

/-- Witness for the amended C1 at two concrete nearby reports. -/
theorem fingerprint_same_cell_eq_witness :
    generateEventFingerprint 20 (1 / 2) 0 (cencQuake 1 false) =
      generateEventFingerprint 20 (1 / 2) 0 wolfxQuakeB :=
  fingerprint_same_cell_eq 20 (1 / 2) 0 (cencQuake 1 false) wolfxQuakeB
    (by decide) (by decide) (by decide) (by decide) (by decide) (by decide)
    (by decide) (by decide) (by decide) (by decide) (by decide)

/-- The retry counter equals the number of failed reconnect attempts. -/
theorem retryCount_eq (k : ℕ) : retryCountAfterFailedRetries k = k := by
  induction k with
  | zero => rfl
  | succ n ih =>
    simp [retryCountAfterFailedRetries, connectRetryUpdate, ih]

/-- C6: with a backup url configured, the reconnects scheduled after the
first `maxRetries` failed attempts target the primary uri, the ones
scheduled after `maxRetries` up to `2*maxRetries - 1` failures target the
backup url, and from `2*maxRetries` failures on the endpoint is abandoned
and no further attempt is scheduled. -/
theorem reconnect_failover (m : ℕ) (p b : String) :
    (∀ k, k < m →
      scheduleReconnect m p (some b) (retryCountAfterFailedRetries k) =
        some p) ∧
    (∀ k, m ≤ k → k < 2 * m →
      scheduleReconnect m p (some b) (retryCountAfterFailedRetries k) =
        some b) ∧
    (∀ k, 2 * m ≤ k →
      scheduleReconnect m p (some b) (retryCountAfterFailedRetries k) =
        none) := by
  refine ⟨fun k hk => ?_, fun k h1 h2 => ?_, fun k h1 => ?_⟩ <;>
    rw [retryCount_eq] <;>
    simp only [scheduleReconnect, Option.isSome_some, if_true]
  · rw [if_neg (by omega), if_neg (fun h => absurd h.2 (by omega))]
  · rw [if_neg (by omega), if_pos ⟨trivial, h1⟩]
  · rw [if_pos (by omega)]

/-- Witness for C6 at maxRetries = 3: the reconnect after 2 failures
still targets the primary, the one after 3 failures targets the backup,
and after 6 failures no attempt is scheduled. -/
theorem reconnect_failover_witness :
    scheduleReconnect 3 "wss_primary" (some "wss_backup")
      (retryCountAfterFailedRetries 2) = some "wss_primary" ∧
    scheduleReconnect 3 "wss_primary" (some "wss_backup")
      (retryCountAfterFailedRetries 3) = some "wss_backup" ∧
    scheduleReconnect 3 "wss_primary" (some "wss_backup")
      (retryCountAfterFailedRetries 6) = none :=
  ⟨(reconnect_failover 3 "wss_primary" "wss_backup").1 2 (by decide),
   (reconnect_failover 3 "wss_primary" "wss_backup").2.1 3 (by decide)
     (by decide),
   (reconnect_failover 3 "wss_primary" "wss_backup").2.2 6 (by decide)⟩

/-- C9 counterexample: a zero-coordinate payload arriving 10 seconds
after the previous heartbeat check is NOT classified as a heartbeat: the
rate limiter makes the check return false instead of running. -/
theorem heartbeat_rate_limit_cex :
    (isHeartbeatMessage "cea_fanstudio" (some 0) 10
      [("latitude", .num 0), ("longitude", .num 0)]).1 = false := by decide

/-- C9 (amended): a payload carrying latitude and longitude both equal to
zero is classified as a heartbeat exactly when the rate limiter lets the
check run (no previous check, or at least 30 seconds since the last one);
within 30 seconds of the previous check the classification is false. -/
theorem heartbeat_zero_coords_iff_allowed (source_id : String)
    (last_check : Option ℚ) (now : ℚ)
    (msg_data : List (String × JsonValue)) (lat lon : JsonValue)
    (hlat : alistLookup "latitude" msg_data = some lat)
    (hlon : alistLookup "longitude" msg_data = some lon)
    (hz1 : jsonIsZero lat = true) (hz2 : jsonIsZero lon = true) :
    (isHeartbeatMessage source_id last_check now msg_data).1 =
      rateLimitAllows last_check now := by
  have hbody : heartbeatBody source_id msg_data = true := by
    simp only [heartbeatBody, hlat, hlon]
    simp [hz1, hz2]
  cases last_check with
  | none => simp [isHeartbeatMessage, rateLimitAllows, hbody]
  | some t =>
    by_cases h : now - t < 30
    · simp [isHeartbeatMessage, rateLimitAllows, h]
    · simp [isHeartbeatMessage, rateLimitAllows, h, hbody]

/-- Witness for the amended C9: with no previous check, a zero-coordinate
payload is classified as a heartbeat (the limiter allows the check). -/
theorem heartbeat_zero_coords_iff_allowed_witness :
    (isHeartbeatMessage "cea_fanstudio" none 0
      [("latitude", .num 0), ("longitude", .num 0)]).1 =
      rateLimitAllows none 0 :=
  heartbeat_zero_coords_iff_allowed "cea_fanstudio" none 0
    [("latitude", .num 0), ("longitude", .num 0)] (.num 0) (.num 0)
    (by decide) (by decide) (by decide) (by decide)

/-- Numeric bounds on the logarithm appearing in the east-formula value
at hypocentral distance 10 km: 3 < ln 35 < 4. -/
theorem log_35_bounds : 3 < Real.log 35 ∧ Real.log 35 < 4 := by
  have he3 : Real.exp 3 = Real.exp 1 ^ 3 := by
    rw [← Real.exp_nat_mul]
    norm_num
  have he4 : Real.exp 4 = Real.exp 1 ^ 4 := by
    rw [← Real.exp_nat_mul]
    norm_num
  constructor
  · rw [Real.lt_log_iff_exp_lt (by norm_num : (0:ℝ) < 35), he3]
    calc Real.exp 1 ^ 3 < 2.7182818286 ^ 3 :=
          pow_lt_pow_left₀ Real.exp_one_lt_d9 (Real.exp_pos 1).le
            (by norm_num)
      _ < 35 := by norm_num
  · rw [Real.log_lt_iff_lt_exp (by norm_num : (0:ℝ) < 35), he4]
    calc (35:ℝ) < 2.7182818283 ^ 4 := by norm_num
      _ < Real.exp 1 ^ 4 :=
          pow_lt_pow_left₀ Real.exp_one_gt_d9 (by norm_num) (by norm_num)

/-- Evaluation of the estimator at magnitude 5.5, distance 0 km, depth
10 km, longitude 120: the hypocentral distance is max(sqrt(0^2+10^2), 5)
= 10 km, so the east formula evaluates on ln(10 + 25) = ln 35 and the
[0,12] clamp is inactive. -/
theorem intensity_east_5p5_eval :
    calculateEstimatedIntensity 5.5 0 10 (some 120) =
      6.046 + 1.480 * 5.5 - 2.081 * Real.log 35 := by
  have hsq : Real.sqrt ((0:ℝ) ^ 2 + 10 ^ 2) = 10 := by
    rw [show ((0:ℝ) ^ 2 + 10 ^ 2) = 10 ^ 2 by norm_num,
      Real.sqrt_sq (by norm_num)]
  have hlog := log_35_bounds
  simp only [calculateEstimatedIntensity, hsq]
  simp only [show ¬((120:ℝ) < 105) by norm_num, if_false,
    Bool.false_eq_true]
  rw [max_eq_left (by norm_num : (5:ℝ) ≤ 10),
    show (10:ℝ) + 25 = 35 by norm_num]
  rw [min_eq_right (by nlinarith [hlog.1, hlog.2]),
    max_eq_right (by nlinarith [hlog.1, hlog.2])]

/-- C7 (amended): the estimator at magnitude 5.5, distance 0 km, depth
10 km, longitude 120 (east formula) returns exactly
6.046 + 1.480*5.5 - 2.081*ln(35): the hypocentral distance is
max(sqrt(0^2+10^2), 5) = 10 km, so the log argument is 10 + 25 = 35 and
the [0,12] clamp is inactive. -/
theorem intensity_east_5p5_value :
    calculateEstimatedIntensity 5.5 0 10 (some 120) =
      6.046 + 1.480 * 5.5 - 2.081 * Real.log 35 :=
  intensity_east_5p5_eval

/-- C7 counterexample: at magnitude 5.5, distance 0, depth 10 the code
does NOT return 6.046 + 1.480*5.5 - 2.081*ln(25): the hypocentral
distance R = max(sqrt(0^2+10^2), 5) = 10 is not 0, so the log term is
ln(10 + 25) = ln 35, not ln 25. -/
theorem intensity_east_ln25_cex :
    calculateEstimatedIntensity 5.5 0 10 (some 120) ≠
      6.046 + 1.480 * 5.5 - 2.081 * Real.log 25 := by
  rw [intensity_east_5p5_eval]
  have h : Real.log 25 < Real.log 35 :=
    Real.log_lt_log (by norm_num) (by norm_num)
  have h2 : (2.081:ℝ) * Real.log 25 < 2.081 * Real.log 35 := by
    nlinarith
  intro hEq
  nlinarith

/-- Monotonicity of the clamped attenuation in the hypocentral distance,
for a fixed nonnegative attenuation coefficient. -/
theorem clampedAttenuationMono (A B C M x1 x2 : ℝ) (hC : 0 ≤ C)
    (h5 : (5:ℝ) ≤ x1) (hx : x1 ≤ x2) :
    max 0 (min 12 (A + B * M - C * Real.log (x2 + 25))) ≤
      max 0 (min 12 (A + B * M - C * Real.log (x1 + 25))) := by
  have hlog : Real.log (x1 + 25) ≤ Real.log (x2 + 25) :=
    Real.log_le_log (by linarith) (by linarith)
  have hmul : C * Real.log (x1 + 25) ≤ C * Real.log (x2 + 25) :=
    mul_le_mul_of_nonneg_left hlog hC
  exact max_le_max le_rfl (min_le_min le_rfl (by linarith))

/-- C8 (amended): for fixed magnitude, depth and event longitude the
local-intensity estimate is monotonically non-increasing in epicentral
distance; strict decrease fails in general because of the 5 km floor on
the hypocentral distance and the clamp to [0, 12]. -/
theorem intensity_antitone_in_distance (M depth : ℝ) (lon : Option ℝ)
    (d1 d2 : ℝ) (h0 : 0 ≤ d1) (h12 : d1 ≤ d2) :
    calculateEstimatedIntensity M d2 depth lon ≤
      calculateEstimatedIntensity M d1 depth lon := by
  have hsq : Real.sqrt (d1 ^ 2 + depth ^ 2) ≤
      Real.sqrt (d2 ^ 2 + depth ^ 2) := by
    apply Real.sqrt_le_sqrt
    nlinarith
  have hR : max (Real.sqrt (d1 ^ 2 + depth ^ 2)) 5 ≤
      max (Real.sqrt (d2 ^ 2 + depth ^ 2)) 5 := max_le_max hsq le_rfl
  have h5 : (5:ℝ) ≤ max (Real.sqrt (d1 ^ 2 + depth ^ 2)) 5 :=
    le_max_right _ _
  simp only [calculateEstimatedIntensity]
  rcases lon with _ | l
  · exact clampedAttenuationMono _ _ _ _ _ _ (by norm_num) h5 hR
  · by_cases hl : l < 105 <;> simp only [hl, if_true, if_false] <;>
      exact clampedAttenuationMono _ _ _ _ _ _ (by norm_num) h5 hR

/-- Witness for the amended C8 at concrete inputs 0 <= 50 <= 80. -/
theorem intensity_antitone_in_distance_witness :
    calculateEstimatedIntensity 5.5 80 10 (some 120) ≤
      calculateEstimatedIntensity 5.5 50 10 (some 120) :=
  intensity_antitone_in_distance 5.5 10 (some 120) 50 80 (by norm_num)
    (by norm_num)

/-- C8 counterexample: with depth 0 the hypocentral distances at
epicentral distances 1 km and 2 km are both below the 5 km floor, so the
estimates are exactly equal rather than strictly decreasing. -/
theorem intensity_floor_cex :
    calculateEstimatedIntensity 5.5 1 0 (some 120) =
      calculateEstimatedIntensity 5.5 2 0 (some 120) := by
  have h1 : Real.sqrt ((1:ℝ) ^ 2 + 0 ^ 2) = 1 := by
    rw [show ((1:ℝ) ^ 2 + 0 ^ 2) = 1 ^ 2 by norm_num,
      Real.sqrt_sq (by norm_num)]
  have h2 : Real.sqrt ((2:ℝ) ^ 2 + 0 ^ 2) = 2 := by
    rw [show ((2:ℝ) ^ 2 + 0 ^ 2) = 2 ^ 2 by norm_num,
      Real.sqrt_sq (by norm_num)]
  simp only [calculateEstimatedIntensity, h1, h2]
  rw [max_eq_right (by norm_num : (1:ℝ) ≤ 5),
    max_eq_right (by norm_num : (2:ℝ) ≤ 5)]

/-- Witness for C4: after a CENC report created the record, a Wolfx CENC
report of the same fingerprint from a different source id is accepted and
recorded. -/
theorem dedup_new_source_always_pass_witness :
    (shouldPushEvent 1 20 (1/2) 600 dedupState1
      { id := "evt2", data := .earthquake wolfxQuakeB,
        source := .wolfxCencEq }).1 = true ∧
    alistLookup (dedupSourceId
      (DisasterEvent.mk "evt2" (.earthquake wolfxQuakeB) .wolfxCencEq).source)
      ((alistLookup (generateEventFingerprint 20 (1/2) 600 wolfxQuakeB)
        (shouldPushEvent 1 20 (1/2) 600 dedupState1
          { id := "evt2", data := .earthquake wolfxQuakeB,
            source := .wolfxCencEq }).2).getD []) =
      some (recordEntry 600 wolfxQuakeB) :=
  dedup_new_source_always_pass 1 20 (1/2) 600 dedupState1
    { id := "evt2", data := .earthquake wolfxQuakeB, source := .wolfxCencEq }
    wolfxQuakeB [("cenc_fanstudio", recordEntry 600 (cencQuake 1 false))]
    rfl (by decide) (by decide)
